import Mathlib

/-!
Verification of the retrieval-and-context-assembly pipeline of the
`ediscover` repository (`src/functions/index.js`), as a shallow embedding:
JavaScript strings become Lean `String`s, the Firestore / Storage / HTTP
collaborators become explicit oracle parameters, and thrown JS errors become
`Except` values.  Machine numbers in the source are small non-negative
integers, embedded as `Nat` (with `Int` where a JS subtraction can go
negative).
-/

namespace EDiscover

/-! ### JavaScript string primitives

`jsTrim`, `jsToLower`, `jsSplitOnSpace`, `jsIncludes`, `jsStartsWith`,
`jsSubstringTo`, `jsSubstringFrom` mirror `String.prototype.trim` /
`.toLowerCase` / `.split(' ')` / `.includes` / `.startsWith` /
`.substring(0, n)` / `.substring(i)` at the character-list level
(`.substring` clamps out-of-range indices, which `List.take`/`List.drop`
and truncated `Nat` subtraction also do). -/

def jsTrim (s : String) : String :=
  ⟨((s.data.dropWhile Char.isWhitespace).reverse.dropWhile Char.isWhitespace).reverse⟩

def jsToLower (s : String) : String :=
  ⟨s.data.map Char.toLower⟩

def splitSpace : List Char → List Char → List String
  | [], acc => [String.mk acc.reverse]
  | c :: cs, acc =>
    if c = ' ' then String.mk acc.reverse :: splitSpace cs []
    else splitSpace cs (c :: acc)

/-- `String.prototype.split(' ')`: split on every single space, keeping
empty pieces. -/
def jsSplitOnSpace (s : String) : List String :=
  splitSpace s.data []

def listHasInfix (needle : List Char) : List Char → Bool
  | [] => needle.isEmpty
  | c :: cs => needle.isPrefixOf (c :: cs) || listHasInfix needle cs

def jsIncludes (s sub : String) : Bool :=
  listHasInfix sub.data s.data

def jsStartsWith (s pre : String) : Bool :=
  pre.data.isPrefixOf s.data

def jsSubstringTo (s : String) (n : Nat) : String :=
  ⟨s.data.take n⟩

def jsSubstringFrom (s : String) (i : Nat) : String :=
  ⟨s.data.drop i⟩

theorem length_jsTrim_le (s : String) : (jsTrim s).length ≤ s.length := by
  show (((s.data.dropWhile Char.isWhitespace).reverse.dropWhile
      Char.isWhitespace).reverse).length ≤ s.data.length
  rw [List.length_reverse]
  calc ((s.data.dropWhile Char.isWhitespace).reverse.dropWhile Char.isWhitespace).length
      ≤ (s.data.dropWhile Char.isWhitespace).reverse.length :=
        (List.dropWhile_sublist _).length_le
    _ = (s.data.dropWhile Char.isWhitespace).length := List.length_reverse _
    _ ≤ s.data.length := (List.dropWhile_sublist _).length_le

theorem length_jsSubstringTo_le (s : String) (n : Nat) :
    (jsSubstringTo s n).length ≤ n := by
  show (s.data.take n).length ≤ n
  simp [List.length_take]

theorem length_jsSubstringFrom (s : String) (i : Nat) :
    (jsSubstringFrom s i).length = s.length - i := by
  show (s.data.drop i).length = s.data.length - i
  simp [List.length_drop]

/-! ### Data model

A candidate document, as read from the per-user Firestore collection.
The source treats a missing metadata field and an empty string identically
(both are falsy in `doc[field] || ''` and in the `if (doc._Subject)`-style
guards), so optional fields are embedded as `String` with `""` for absent. -/

structure Doc where
  id : String
  subject : String := ""          -- `_Subject`
  notes : String := ""            -- `Notes`
  fileName : String := ""         -- `File Name`
  sender : String := ""           -- `_From`
  recipient : String := ""        -- `_To`
  cc : String := ""               -- `_CC`
  date : String := ""             -- `_Date`
  textStoragePath : String := ""
deriving DecidableEq

/-- The raw bytes downloaded from Storage, abstracted by the two decodings
the source may apply to them (`buffer.toString('utf16le')` and
`buffer.toString('utf8')`). -/
structure Buffer where
  utf16le : String
  utf8 : String
deriving DecidableEq

/-! ### Constants (src/functions/index.js lines 246-257) -/

def stopWords : List String :=
  ["a", "an", "and", "the", "in", "on", "of", "for", "to", "with",
   "is", "are", "was", "were"]

def METADATA_FIELDS_TO_SEARCH : List String :=
  ["_Subject", "Notes", "File Name", "_From", "_To", "_CC"]

def MAX_CONTEXT_DOCS : Nat := 5

def MAX_INPUT_TOKENS : Nat := 30000

def CHARS_PER_TOKEN : Nat := 4

def RESERVED_TOKENS_FOR_PROMPT : Nat := 500

def MIN_TOKENS_PER_DOC : Nat := 100

/-- `estimateTokens` (lines 263-266): `Math.ceil(text.length / 4)`
(the `!text` guard returns `0`, which the formula also gives for `""`). -/
def estimateTokens (text : String) : Nat :=
  (text.length + (CHARS_PER_TOKEN - 1)) / CHARS_PER_TOKEN

/-- `extractKeyMetadata` (lines 272-287): the `keyInfo` array joined
with `' | '`; a field is pushed only when truthy (non-empty here). -/
def extractKeyMetadata (doc : Doc) : String :=
  let keyInfo := ["ID: " ++ doc.id]
  let keyInfo := if doc.subject ≠ "" then keyInfo ++ ["Subject: " ++ doc.subject] else keyInfo
  let keyInfo := if doc.sender ≠ "" then keyInfo ++ ["From: " ++ doc.sender] else keyInfo
  let keyInfo := if doc.recipient ≠ "" then keyInfo ++ ["To: " ++ doc.recipient] else keyInfo
  let keyInfo := if doc.date ≠ "" then keyInfo ++ ["Date: " ++ doc.date] else keyInfo
  let keyInfo := if doc.fileName ≠ "" then keyInfo ++ ["Filename: " ++ doc.fileName] else keyInfo
  let keyInfo := if doc.notes ≠ "" then keyInfo ++ ["Notes: " ++ doc.notes] else keyInfo
  String.intercalate " | " keyInfo

/-- The metadata header built at the start of `truncateDocumentText`
(line 296): `result = [${metadata}]\n\n` with backtick interpolation. -/
def metadataHeader (doc : Doc) : String :=
  "[" ++ extractKeyMetadata doc ++ "]\n\n"

/-- `truncateDocumentText` (lines 293-327).  `remainingTokens` is an `Int`
because the JS subtraction `maxTokens - metadataTokens` can go negative. -/
def truncateDocumentText (doc : Doc) (text : String) (maxTokens : Nat) : String :=
  let result := metadataHeader doc
  let metadataTokens := estimateTokens result
  let remainingTokens : Int := (maxTokens : Int) - (metadataTokens : Int)
  if remainingTokens < (MIN_TOKENS_PER_DOC : Int) then
    result ++ "[Text truncated due to size]"
  else
    let cleanText := jsTrim text
    let totalTextTokens := estimateTokens cleanText
    if (totalTextTokens : Int) ≤ remainingTokens then
      result ++ cleanText
    else
      let halfTokens := remainingTokens.toNat / 2
      let startChars := halfTokens * CHARS_PER_TOKEN
      let endChars := halfTokens * CHARS_PER_TOKEN
      let startSnippet := jsTrim (jsSubstringTo cleanText startChars)
      let endSnippet := jsTrim (jsSubstringFrom cleanText (cleanText.length - endChars))
      result ++ startSnippet ++ "\n\n[... middle content truncated ...]\n\n" ++ endSnippet

/-! ### Document Text Fetcher (lines 417-437)

The Storage download (`fileRef.download()`) is an oracle parameter:
`Except.error msg` models the download (or anything else inside the outer
`try`) throwing, `Except.ok buf` models a successful download of `buf`.
`buffer.toString(...)` never throws in Node, so the inner `try` reduces to
the character heuristic. -/

def fetchDocumentText (doc : Doc) (download : Except String Buffer) : String :=
  if doc.textStoragePath = "" then
    "[No text path for " ++ doc.id ++ "]"
  else
    match download with
    | Except.error _ => "[Error fetching text for " ++ doc.id ++ "]"
    | Except.ok buffer =>
      let text := buffer.utf16le
      if text.data.contains 'e' || text.data.contains 't' then text else buffer.utf8

/-! ### Metadata Relevance Scorer (lines 332-412) -/

/-- The keyword list computed at lines 334-335:
`query.toLowerCase().split(' ').filter(k => k.trim() && !stopWords.has(k))`. -/
def searchKeywords (query : String) : List String :=
  (jsSplitOnSpace (jsToLower query)).filter
    (fun k => (jsTrim k != "") && !(stopWords.contains k))

/-- Value of `doc[field] || ''` for the fields in
`METADATA_FIELDS_TO_SEARCH`. -/
def docField (doc : Doc) : String → String
  | "_Subject" => doc.subject
  | "Notes" => doc.notes
  | "File Name" => doc.fileName
  | "_From" => doc.sender
  | "_To" => doc.recipient
  | "_CC" => doc.cc
  | _ => ""

/-- The identifier and structured-field part of the per-document score
(lines 354-373): the running `score` after the ID check and the
`METADATA_FIELDS_TO_SEARCH` loop, before the text-content check. -/
def metadataScore (keywords : List String) (doc : Doc) : Nat :=
  let docId := jsToLower doc.id
  let idMatches := keywords.filter (fun k => jsIncludes docId k)
  let score := if idMatches.length > 0 then idMatches.length * 5 else 0
  METADATA_FIELDS_TO_SEARCH.foldl
    (fun acc field =>
      let value := jsToLower (docField doc field)
      let fieldMatches := keywords.filter (fun k => jsIncludes value k)
      if fieldMatches.length > 0 then
        acc + fieldMatches.length * (if field == "_Subject" || field == "Notes" then 3 else 1)
      else acc)
    score

/-- The text-content part of the per-document score (lines 376-391): the
amount added to `score` by the `doc.textStoragePath` block.  The
`fetchDocumentText` call never throws (it catches internally), so the
surrounding `try` is inert. -/
def contentScore (keywords : List String) (doc : Doc)
    (download : Except String Buffer) : Nat :=
  if doc.textStoragePath != "" then
    let text := fetchDocumentText doc download
    if (text != "") && !(jsStartsWith text "[") then
      let contentMatches := keywords.filter (fun k => jsIncludes (jsToLower text) k)
      if contentMatches.length > 0 then contentMatches.length * 2 else 0
    else 0
  else 0

/-- The total per-document score (lines 353-394): the ID/field part plus
the content part, exactly the order the source accumulates `score` in. -/
def scoreDoc (keywords : List String) (doc : Doc)
    (download : Except String Buffer) : Nat :=
  metadataScore keywords doc + contentScore keywords doc download

/-- `findRelevantDocsByMetadata` (lines 332-412).  `allDocuments` is the
snapshot enumeration of the user's collection; `download doc` is the
Storage oracle used by that document's `fetchDocumentText` call.
`sort((a, b) => b.score - a.score)` is a stable descending sort
(ECMAScript `Array.prototype.sort` is stable), embedded as `mergeSort`
with the reflexive descending comparison. -/
def findRelevantDocsByMetadata (query : String) (allDocuments : List Doc)
    (download : Doc → Except String Buffer) : List Doc :=
  let keywords := searchKeywords query
  if keywords.length = 0 then []
  else
    let scoredDocs := allDocuments.map (fun doc => (doc, scoreDoc keywords doc (download doc)))
    let matchedDocs :=
      (scoredDocs.filter (fun item => item.2 > 0)).mergeSort
        (fun a b => decide (b.2 ≤ a.2))
    (matchedDocs.take MAX_CONTEXT_DOCS).map (fun item => item.1)

/-! ### Generation Client (lines 77-217)

The HTTP layer is an oracle: for each model identifier the network yields
an `ApiOutcome`.  `exn msg` models `fetch` (or `resp.json()`) throwing;
`resp status body answer` models a settled response, where `answer` is the
answer text the source's shape-dependent extraction
(`payload.candidates?.[0]?.content?.parts?.[0]?.text` for Gemini bodies,
`payload.candidates?.[0]?.output` for legacy bodies) would produce, with
`""` for an absent/empty field (both falsy in the `if (!answerText)`
guard). -/

inductive ApiOutcome where
  | exn (msg : String)
  | resp (status : Nat) (body : String) (answer : String)
deriving DecidableEq

/-- A thrown JS `Error`, with the `status` / `isTokenError` fields the
source attaches (absent fields are `none` / `false`). -/
structure JsError where
  message : String
  status : Option Nat := none
  isTokenError : Bool := false
deriving DecidableEq

/-- `resp.ok`: HTTP status in the 200-299 range. -/
def respOk (status : Nat) : Bool :=
  200 ≤ status && status ≤ 299

/-- The textual hint match of lines 124-127 on the error body. -/
def hasTokenHint (txt : String) : Bool :=
  jsIncludes (jsToLower txt) "token" || jsIncludes (jsToLower txt) "too long" ||
    jsIncludes (jsToLower txt) "max" || jsIncludes (jsToLower txt) "limit"

/-- Lines 85-88: the ordered model candidate list. -/
def modelCandidates : List String :=
  ["googleai/gemini-2.5-flash", "gemini-2.5-flash"]

/-- One attempt against one model: `tryUrl` (lines 111-144) followed by the
answer extraction and `if (!answerText) throw` of the loop body
(lines 162-169 resp. 198-205). -/
def attemptModel (outcome : ApiOutcome) : Except JsError String :=
  match outcome with
  | ApiOutcome.exn msg => Except.error { message := msg }
  | ApiOutcome.resp status body answer =>
    if !(respOk status) then
      let isTokenError := status == 400 && hasTokenHint body
      if isTokenError then
        Except.error
          { message := "Request exceeded token limits. Try asking about fewer documents or a more specific query.",
            status := some status, isTokenError := true }
      else
        Except.error
          { message := "Generative API returned " ++ toString status,
            status := some status }
    else
      if answer = "" then
        Except.error { message := "Unexpected API response format" }
      else
        Except.ok answer

/-- The per-model `for` loop shared by both strategies (lines 153-179 and
190-215): a 404 error continues to the next candidate, any other error is
rethrown, exhaustion throws `exhausted`. -/
def modelLoop (call : String → ApiOutcome) (exhausted : JsError) :
    List String → Except JsError String
  | [] => Except.error exhausted
  | modelName :: rest =>
    match attemptModel (call modelName) with
    | Except.ok answer => Except.ok answer
    | Except.error e =>
      if e.status = some 404 then modelLoop call exhausted rest
      else Except.error e

/-- The service-account strategy (lines 147-180): token acquisition
(`tokenRes`, `Except.error` modelling a `GoogleAuth` throw or a missing
token) followed by the model loop. -/
def saPhase (tokenRes : Except String Unit) (saCall : String → ApiOutcome) :
    Except JsError String :=
  match tokenRes with
  | Except.error msg => Except.error { message := msg }
  | Except.ok _ =>
    modelLoop saCall { message := "No compatible Generative API endpoint found" }
      modelCandidates

/-- The full generation call with fallback (lines 146-217): the
service-account strategy, then on any failure the API-key strategy when a
key is configured, else the original service-account error. -/
def generationClient (tokenRes : Except String Unit)
    (saCall keyCall : String → ApiOutcome) (apiKey : Option String) :
    Except JsError String :=
  match saPhase tokenRes saCall with
  | Except.ok answer => Except.ok answer
  | Except.error saError =>
    match apiKey with
    | none => Except.error saError
    | some _ =>
      modelLoop keyCall
        { message := "No compatible Generative API endpoint found with API key" }
        modelCandidates

/-! ### Request Handler (lines 19-243) -/

/-- The outcome of the callable: a returned value or a thrown `HttpsError`
(code, message). -/
inductive CallableResult where
  | success (answer : String) (sources : List Doc)
  | failure (code : String) (message : String)
deriving DecidableEq

/-- The caller-facing message of the token-limit `HttpsError`
(lines 224-230). -/
def tokenLimitAdvice : String :=
  "Query exceeded token limits. The documents contain too much text. Try:\n" ++
    "1. Asking a more specific question\n" ++
    "2. Searching for documents with specific keywords\n" ++
    "3. Querying fewer documents at once"

/-- The `catch` block of lines 219-242 mapping an internal error to the
caller-facing `HttpsError`. -/
def mapQueryError (e : JsError) : CallableResult :=
  if e.isTokenError then
    CallableResult.failure "resource-exhausted" tokenLimitAdvice
  else if e.status = some 400 then
    CallableResult.failure "invalid-argument"
      ("Invalid request to AI service: " ++ e.message)
  else
    CallableResult.failure "internal" ("AI processing failed: " ++ e.message)

/-- The `docQuery` callable (lines 19-243).  `query`/`userId` with `""`
for the falsy (missing) case; the Firestore snapshot, Storage downloads,
token acquisition and the two HTTP strategies are oracle parameters.
Prompt assembly (lines 50-108) only builds strings that the oracles ignore,
so it does not appear in the result. -/
def docQuery (query userId : String) (allDocuments : List Doc)
    (download : Doc → Except String Buffer) (tokenRes : Except String Unit)
    (saCall keyCall : String → ApiOutcome) (apiKey : Option String) :
    CallableResult :=
  if query = "" ∨ userId = "" then
    CallableResult.failure "invalid-argument" "Query and userId are required"
  else
    let relevantDocs := findRelevantDocsByMetadata query allDocuments download
    if relevantDocs.length = 0 then
      CallableResult.success "No relevant documents found for your query." []
    else
      match generationClient tokenRes saCall keyCall apiKey with
      | Except.ok answer => CallableResult.success answer relevantDocs
      | Except.error e => mapQueryError e

/-! ### Claims C1 and C2: the truncator's budget bound and round-trip -/

set_option maxRecDepth 40000 in
/-- C1 (counterexample): as stated the claim is false.  With a 100-character
`Notes` field and a 10-token budget, the returned block costs 37 estimated
tokens, far beyond the budget plus any few-token rounding slack (here 10):
the header-only branch still emits the full metadata header, whose size is
not limited by the budget. -/
theorem truncateDocumentText_budget_violated :
    10 + 10 <
      estimateTokens
        (truncateDocumentText { id := "d", notes := String.mk (List.replicate 100 'x') }
          "" 10) := by
  decide

/-- C1 (amended): whenever the metadata header leaves at least the
100-token minimum floor inside the budget (so the header-only branch is
not taken), the returned block's estimated token count is at most the
per-document budget plus 10 tokens of slack (the mid-text marker plus
integer rounding). -/
theorem truncateDocumentText_tokens_le (doc : Doc) (text : String) (maxTokens : Nat)
    (h : estimateTokens (metadataHeader doc) + MIN_TOKENS_PER_DOC ≤ maxTokens) :
    estimateTokens (truncateDocumentText doc text maxTokens) ≤ maxTokens + 10 := by
  simp only [estimateTokens, CHARS_PER_TOKEN, MIN_TOKENS_PER_DOC] at h
  simp only [truncateDocumentText, estimateTokens, CHARS_PER_TOKEN, MIN_TOKENS_PER_DOC]
  rw [if_neg (by push_cast; omega)]
  split
  · rename_i hfit
    rw [String.length_append]
    push_cast at hfit
    omega
  · rename_i hbig
    rw [String.length_append, String.length_append, String.length_append]
    set K := ((maxTokens : Int) -
        (((((metadataHeader doc).length + (4 - 1)) / 4 : Nat)) : Int)).toNat / 2 with hK
    have b1 : (jsTrim (jsSubstringTo (jsTrim text) (K * 4))).length ≤ K * 4 :=
      le_trans (length_jsTrim_le _) (length_jsSubstringTo_le _ _)
    have b2 : (jsTrim (jsSubstringFrom (jsTrim text) ((jsTrim text).length - K * 4))).length
        ≤ (jsTrim text).length - ((jsTrim text).length - K * 4) :=
      le_trans (length_jsTrim_le _) (le_of_eq (length_jsSubstringFrom _ _))
    have hmarker : ("\n\n[... middle content truncated ...]\n\n" : String).length = 38 := rfl
    rw [hmarker]
    omega

/-- C1 (witness for the amended theorem) at a concrete document, text and
budget. -/
theorem truncateDocumentText_tokens_le_witness :
    estimateTokens (metadataHeader { id := "d" }) + MIN_TOKENS_PER_DOC ≤ 103
    ∧ estimateTokens (truncateDocumentText { id := "d" } "hello" 103) ≤ 103 + 10 :=
  ⟨by decide, truncateDocumentText_tokens_le { id := "d" } "hello" 103 (by decide)⟩

set_option maxRecDepth 40000 in
/-- C2 (counterexample): as stated the claim is false.  A 432-character
text costs 108 estimated tokens, within the 110-token budget, yet the
code compares against the budget left *after* the metadata header
(110 − 3 = 107 here), so the mid-text truncation marker appears and the
full text is not returned. -/
theorem truncateDocumentText_marker_despite_fit :
    estimateTokens (String.mk (List.replicate 432 'a')) ≤ 110
    ∧ jsIncludes
        (truncateDocumentText { id := "d" } (String.mk (List.replicate 432 'a')) 110)
        "[... middle content truncated ...]" = true
    ∧ truncateDocumentText { id := "d" } (String.mk (List.replicate 432 'a')) 110
        ≠ metadataHeader { id := "d" } ++ String.mk (List.replicate 432 'a') := by
  refine ⟨by decide, by decide, by decide⟩

/-- C2 (amended): if the trimmed full text's estimated token count fits in
the budget left after the metadata header, and the header leaves at least
the 100-token minimum floor, the truncator returns exactly the metadata
header followed by the trimmed full text — nothing is cut and no
truncation marker is inserted. -/
theorem truncateDocumentText_full_text (doc : Doc) (text : String) (maxTokens : Nat)
    (h1 : estimateTokens (metadataHeader doc) + MIN_TOKENS_PER_DOC ≤ maxTokens)
    (h2 : estimateTokens (jsTrim text) + estimateTokens (metadataHeader doc) ≤ maxTokens) :
    truncateDocumentText doc text maxTokens = metadataHeader doc ++ jsTrim text := by
  simp only [estimateTokens, CHARS_PER_TOKEN, MIN_TOKENS_PER_DOC] at h1 h2
  simp only [truncateDocumentText, estimateTokens, CHARS_PER_TOKEN, MIN_TOKENS_PER_DOC]
  rw [if_neg (by push_cast; omega), if_pos (by push_cast; omega)]

/-- C2 (witness for the amended theorem) at a concrete document, text and
budget: the trimmed text comes back whole behind the header. -/
theorem truncateDocumentText_full_text_witness :
    estimateTokens (metadataHeader { id := "d" }) + MIN_TOKENS_PER_DOC ≤ 110
    ∧ estimateTokens (jsTrim "  hello  ") + estimateTokens (metadataHeader { id := "d" }) ≤ 110
    ∧ truncateDocumentText { id := "d" } "  hello  " 110
        = metadataHeader { id := "d" } ++ jsTrim "  hello  " :=
  ⟨by decide, by decide,
    truncateDocumentText_full_text { id := "d" } "  hello  " 110 (by decide) (by decide)⟩

/-! ### Claims C5, C8, C9: the per-document score and the fetch sentinels -/

theorem jsStartsWith_bracket_append (s t : String) (h : jsStartsWith s "[" = true) :
    jsStartsWith (s ++ t) "[" = true := by
  unfold jsStartsWith at h ⊢
  rw [String.data_append]
  cases hd : s.data with
  | nil => rw [hd] at h; simp [List.isPrefixOf] at h
  | cons c cs =>
    rw [hd] at h
    have hb : "[".data = ['['] := rfl
    rw [hb] at h ⊢
    simp only [List.cons_append, List.isPrefixOf] at h ⊢
    simpa using h

theorem errorSentinel_starts_bracket (doc : Doc) :
    jsStartsWith ("[Error fetching text for " ++ doc.id ++ "]") "[" = true :=
  jsStartsWith_bracket_append _ _ (jsStartsWith_bracket_append _ _ rfl)

/-- C8: when the Storage download throws, `fetchDocumentText` returns the
bracketed error sentinel naming the document (it never propagates the
exception — it is a total function), and that document's score is exactly
its identifier/metadata-field score: the content-match bonus is omitted.
Scoring of the whole set completes because `findRelevantDocsByMetadata`
is itself a total function of the same oracles. -/
theorem fetchDocumentText_error_sentinel (doc : Doc) (msg : String) (keywords : List String)
    (hpath : doc.textStoragePath ≠ "") :
    fetchDocumentText doc (Except.error msg) = "[Error fetching text for " ++ doc.id ++ "]"
    ∧ scoreDoc keywords doc (Except.error msg) = metadataScore keywords doc := by
  have h1 : fetchDocumentText doc (Except.error msg)
      = "[Error fetching text for " ++ doc.id ++ "]" := by
    unfold fetchDocumentText
    rw [if_neg hpath]
  refine ⟨h1, ?_⟩
  unfold scoreDoc
  have hz : contentScore keywords doc (Except.error msg) = 0 := by
    unfold contentScore
    rw [h1]
    simp [errorSentinel_starts_bracket doc]
  omega

/-- C8 (witness): a concrete document with a text pointer whose download
throws. -/
theorem fetchDocumentText_error_sentinel_witness :
    ({ id := "d", textStoragePath := "p" } : Doc).textStoragePath ≠ ""
    ∧ (fetchDocumentText { id := "d", textStoragePath := "p" } (Except.error "boom")
        = "[Error fetching text for " ++ ({ id := "d", textStoragePath := "p" } : Doc).id ++ "]"
      ∧ scoreDoc ["x"] { id := "d", textStoragePath := "p" } (Except.error "boom")
        = metadataScore ["x"] { id := "d", textStoragePath := "p" }) :=
  ⟨by decide,
    fetchDocumentText_error_sentinel { id := "d", textStoragePath := "p" } "boom" ["x"]
      (by decide)⟩

/-- C9: a document whose *successfully fetched, genuine* text begins with
`'['` gets no content-match bonus either — the sentinel test at line 379
is only the prefix check `text.startsWith('[')`, so such a text is treated
exactly like a failure sentinel and the score collapses to the
identifier/metadata-field score. -/
theorem scoreDoc_bracket_text (keywords : List String) (doc : Doc) (buf : Buffer)
    (h : jsStartsWith (fetchDocumentText doc (Except.ok buf)) "[" = true) :
    scoreDoc keywords doc (Except.ok buf) = metadataScore keywords doc := by
  unfold scoreDoc
  have hz : contentScore keywords doc (Except.ok buf) = 0 := by
    unfold contentScore
    cases hp : doc.textStoragePath != "" with
    | false => simp [hp]
    | true => simp [hp, h]
  omega

/-- C9 (witness): genuine fetched text `"[redacted contract]"` contains
the query token `"contract"` but earns no `+2` bonus. -/
theorem scoreDoc_bracket_text_witness :
    jsStartsWith
      (fetchDocumentText { id := "d2", textStoragePath := "p" }
        (Except.ok { utf16le := "[redacted contract]", utf8 := "y" })) "[" = true
    ∧ scoreDoc ["contract"] { id := "d2", textStoragePath := "p" }
        (Except.ok { utf16le := "[redacted contract]", utf8 := "y" })
      = metadataScore ["contract"] { id := "d2", textStoragePath := "p" } :=
  ⟨by decide,
    scoreDoc_bracket_text ["contract"] { id := "d2", textStoragePath := "p" }
      { utf16le := "[redacted contract]", utf8 := "y" } (by decide)⟩

/-- The failure sentinels `fetchDocumentText` can return for a given
document (spec §4.2): the "no text path" and "error fetching text"
bracketed strings. -/
def isFailureSentinel (doc : Doc) (text : String) : Bool :=
  text == "[No text path for " ++ doc.id ++ "]" ||
    text == "[Error fetching text for " ++ doc.id ++ "]"

/-- C5's score formula read literally from the claim: +5 per token in the
lower-cased identifier, +3 per token in Subject/Notes, +1 per token in
File Name/From/To/CC, and +2 per token in the fetched text when the
document has a text pointer and the text is not a failure sentinel. -/
def claimScore (keywords : List String) (doc : Doc) (text : String) : Nat :=
  5 * (keywords.filter (fun k => jsIncludes (jsToLower doc.id) k)).length
    + 3 * (keywords.filter (fun k => jsIncludes (jsToLower doc.subject) k)).length
    + 3 * (keywords.filter (fun k => jsIncludes (jsToLower doc.notes) k)).length
    + (keywords.filter (fun k => jsIncludes (jsToLower doc.fileName) k)).length
    + (keywords.filter (fun k => jsIncludes (jsToLower doc.sender) k)).length
    + (keywords.filter (fun k => jsIncludes (jsToLower doc.recipient) k)).length
    + (keywords.filter (fun k => jsIncludes (jsToLower doc.cc) k)).length
    + (if doc.textStoragePath != "" && !(isFailureSentinel doc text) then
        2 * (keywords.filter (fun k => jsIncludes (jsToLower text) k)).length
      else 0)

/-- C5's score formula with the content-bonus condition amended to what
the code checks: the fetched text is non-empty and does not begin with
`'['` (instead of "is not a failure sentinel"). -/
def claimScoreAmended (keywords : List String) (doc : Doc) (text : String) : Nat :=
  5 * (keywords.filter (fun k => jsIncludes (jsToLower doc.id) k)).length
    + 3 * (keywords.filter (fun k => jsIncludes (jsToLower doc.subject) k)).length
    + 3 * (keywords.filter (fun k => jsIncludes (jsToLower doc.notes) k)).length
    + (keywords.filter (fun k => jsIncludes (jsToLower doc.fileName) k)).length
    + (keywords.filter (fun k => jsIncludes (jsToLower doc.sender) k)).length
    + (keywords.filter (fun k => jsIncludes (jsToLower doc.recipient) k)).length
    + (keywords.filter (fun k => jsIncludes (jsToLower doc.cc) k)).length
    + (if doc.textStoragePath != "" && (text != "" && !(jsStartsWith text "[")) then
        2 * (keywords.filter (fun k => jsIncludes (jsToLower text) k)).length
      else 0)

/-- C5 (counterexample): as stated the claim is false.  A successfully
fetched genuine text `"[ok here"` is not one of the failure sentinels, so
the claim's formula awards `+2` for the token `"here"`, but the code's
`'['`-prefix test suppresses the bonus and scores the document `0`. -/
theorem scoreDoc_ne_claimScore :
    scoreDoc ["here"] { id := "d1", textStoragePath := "p" }
        (Except.ok { utf16le := "[ok here", utf8 := "z" }) = 0
    ∧ claimScore ["here"] { id := "d1", textStoragePath := "p" }
        (fetchDocumentText { id := "d1", textStoragePath := "p" }
          (Except.ok { utf16le := "[ok here", utf8 := "z" })) = 2
    ∧ isFailureSentinel { id := "d1", textStoragePath := "p" }
        (fetchDocumentText { id := "d1", textStoragePath := "p" }
          (Except.ok { utf16le := "[ok here", utf8 := "z" })) = false := by
  refine ⟨by decide, by decide, by decide⟩

/-- C5 (amended): for every keyword list, document and download outcome,
the code's score is the claim's additive formula with the content-bonus
condition being "text pointer present, fetched text non-empty and not
beginning with `'['`". -/
theorem scoreDoc_eq_claimScoreAmended (keywords : List String) (doc : Doc)
    (download : Except String Buffer) :
    scoreDoc keywords doc download
      = claimScoreAmended keywords doc (fetchDocumentText doc download) := by
  have key1 : ∀ acc n w : Nat, (if n > 0 then acc + n * w else acc) = acc + n * w := by
    intro acc n w
    rcases Nat.eq_zero_or_pos n with h | h
    · subst h; simp
    · rw [if_pos h]
  have key2 : ∀ n w : Nat, (if n > 0 then n * w else 0) = n * w := by
    intro n w
    rcases Nat.eq_zero_or_pos n with h | h
    · subst h; simp
    · rw [if_pos h]
  have w1 : (if (("_Subject" : String) == "_Subject" || ("_Subject" : String) == "Notes") = true
      then (3 : Nat) else 1) = 3 := rfl
  have w2 : (if (("Notes" : String) == "_Subject" || ("Notes" : String) == "Notes") = true
      then (3 : Nat) else 1) = 3 := rfl
  have w3 : (if (("File Name" : String) == "_Subject" || ("File Name" : String) == "Notes") = true
      then (3 : Nat) else 1) = 1 := rfl
  have w4 : (if (("_From" : String) == "_Subject" || ("_From" : String) == "Notes") = true
      then (3 : Nat) else 1) = 1 := rfl
  have w5 : (if (("_To" : String) == "_Subject" || ("_To" : String) == "Notes") = true
      then (3 : Nat) else 1) = 1 := rfl
  have w6 : (if (("_CC" : String) == "_Subject" || ("_CC" : String) == "Notes") = true
      then (3 : Nat) else 1) = 1 := rfl
  simp only [scoreDoc, metadataScore, contentScore, claimScoreAmended,
    METADATA_FIELDS_TO_SEARCH, List.foldl_cons, List.foldl_nil, docField,
    key1, key2, w1, w2, w3, w4, w5, w6]
  cases hp : doc.textStoragePath != "" <;>
    cases ht : (fetchDocumentText doc download != "")
        && !(jsStartsWith (fetchDocumentText doc download) "[") <;>
      simp [hp, ht] <;> omega

/-! ### Claims C3, C4, C7: the generation fallback protocol and the handler -/

/-- C3: the generation client tries service-identity auth first over the
ordered model list.  (i) A 404 for the first model silently continues to
the second; its success is the final answer.  (ii) Any non-404 error on a
model aborts the whole service-identity strategy: with an API key
configured the result is exactly the key strategy's model loop, without
one it is that error.  (iii) Whenever the service-identity phase fails and
no API key is configured, the original service-identity error is the final
error. -/
theorem generation_fallback (saCall keyCall : String → ApiOutcome) (apiKey : Option String)
    (e1 e : JsError) (a : String) :
    (attemptModel (saCall "googleai/gemini-2.5-flash") = Except.error e1 →
      e1.status = some 404 →
      attemptModel (saCall "gemini-2.5-flash") = Except.ok a →
      generationClient (Except.ok ()) saCall keyCall apiKey = Except.ok a)
    ∧ (attemptModel (saCall "googleai/gemini-2.5-flash") = Except.error e →
      e.status ≠ some 404 →
      generationClient (Except.ok ()) saCall keyCall apiKey =
        (match apiKey with
        | none => Except.error e
        | some _ =>
          modelLoop keyCall
            { message := "No compatible Generative API endpoint found with API key" }
            modelCandidates))
    ∧ (∀ tokenRes, saPhase tokenRes saCall = Except.error e →
      generationClient tokenRes saCall keyCall none = Except.error e) := by
  refine ⟨?_, ?_, ?_⟩
  · intro h1 h404 h2
    unfold generationClient saPhase
    simp only [modelCandidates, modelLoop, h1, h404, if_pos, h2]
  · intro h1 hne
    unfold generationClient saPhase
    simp only [modelCandidates, modelLoop, h1]
    rw [if_neg hne]
  · intro tokenRes hsa
    unfold generationClient
    rw [hsa]

/-- C3 (witness): the three parts of `generation_fallback` at concrete
oracles — the spec's 404-then-success scenario, a 500 falling through to a
successful key strategy, and a token-acquisition failure with no key
surfacing as the original error. -/
theorem generation_fallback_witness :
    generationClient (Except.ok ())
        (fun m => if m = "googleai/gemini-2.5-flash" then ApiOutcome.resp 404 "nf" ""
          else ApiOutcome.resp 200 "" "two")
        (fun _ => ApiOutcome.exn "n") none
      = Except.ok "two"
    ∧ generationClient (Except.ok ())
        (fun _ => ApiOutcome.resp 500 "oops" "")
        (fun _ => ApiOutcome.resp 200 "" "key answer") (some "k")
      = Except.ok "key answer"
    ∧ generationClient (Except.error "no token")
        (fun _ => ApiOutcome.resp 200 "" "x") (fun _ => ApiOutcome.resp 200 "" "y") none
      = Except.error { message := "no token" } := by
  refine ⟨?_, ?_, ?_⟩
  · exact (generation_fallback
      (fun m => if m = "googleai/gemini-2.5-flash" then ApiOutcome.resp 404 "nf" ""
        else ApiOutcome.resp 200 "" "two")
      (fun _ => ApiOutcome.exn "n") none
      { message := "Generative API returned 404", status := some 404 }
      { message := "x" } "two").1 rfl rfl rfl
  · have h := (generation_fallback
      (fun _ => ApiOutcome.resp 500 "oops" "")
      (fun _ => ApiOutcome.resp 200 "" "key answer") (some "k")
      { message := "x" }
      { message := "Generative API returned 500", status := some 500 } "x").2.1
      rfl (by decide)
    rw [h]
    rfl
  · exact (generation_fallback
      (fun _ => ApiOutcome.resp 200 "" "x") (fun _ => ApiOutcome.resp 200 "" "y") none
      { message := "x" } { message := "no token" } "x").2.2
      (Except.error "no token") rfl

theorem findRelevant_contract_eval (download : Doc → Except String Buffer) :
    findRelevantDocsByMetadata "contract" [{ id := "d1", subject := "contract details" }] download
      = [{ id := "d1", subject := "contract details" }] := by
  have hc : ∀ dl : Except String Buffer,
      contentScore ["contract"] { id := "d1", subject := "contract details" } dl = 0 :=
    fun _ => rfl
  have h2 : ∀ dl : Except String Buffer,
      scoreDoc ["contract"] { id := "d1", subject := "contract details" } dl = 3 := by
    intro dl
    unfold scoreDoc
    rw [hc dl]
    decide
  have h1 : searchKeywords "contract" = ["contract"] := by decide
  unfold findRelevantDocsByMetadata
  rw [h1]
  simp [h2, List.mergeSort_singleton, MAX_CONTEXT_DOCS]

/-- C4 (counterexample): as stated the claim is false.  A non-success
response with HTTP status 500 whose body is "maximum token limit exceeded"
matches the textual hint, yet the handler maps it to the generic
`internal` error: the code classifies a token-limit failure only when the
status is 400 (line 123). -/
theorem tokenHint_500_internal :
    hasTokenHint "maximum token limit exceeded" = true
    ∧ respOk 500 = false
    ∧ docQuery "contract" "u" [{ id := "d1", subject := "contract details" }]
        (fun _ => Except.error "x") (Except.ok ())
        (fun _ => ApiOutcome.resp 500 "maximum token limit exceeded" "")
        (fun _ => ApiOutcome.exn "no") none
      = CallableResult.failure "internal" "AI processing failed: Generative API returned 500" := by
  refine ⟨by decide, by decide, ?_⟩
  unfold docQuery
  rw [findRelevant_contract_eval]
  rfl

/-- C4 (amended): for every non-success generation-endpoint response whose
HTTP status is 400 *and* whose body matches the token hint, the handler
surfaces the `resource-exhausted` code with the fixed advice message (here
under service-identity auth with no API key configured, so the error is
final). -/
theorem tokenLimit_resource_exhausted (query userId : String) (docs : List Doc)
    (download : Doc → Except String Buffer) (saCall keyCall : String → ApiOutcome)
    (body ans : String)
    (hq : query ≠ "") (hu : userId ≠ "")
    (hne : findRelevantDocsByMetadata query docs download ≠ [])
    (hcall : saCall "googleai/gemini-2.5-flash" = ApiOutcome.resp 400 body ans)
    (hhint : hasTokenHint body = true) :
    docQuery query userId docs download (Except.ok ()) saCall keyCall none
      = CallableResult.failure "resource-exhausted" tokenLimitAdvice := by
  unfold docQuery
  rw [if_neg (by simp [hq, hu])]
  have hlen : ¬ (findRelevantDocsByMetadata query docs download).length = 0 := by
    intro h0
    exact hne (List.length_eq_zero.mp h0)
  rw [if_neg hlen]
  have hgen : generationClient (Except.ok ()) saCall keyCall none
      = Except.error
          { message := "Request exceeded token limits. Try asking about fewer documents or a more specific query.",
            status := some 400, isTokenError := true } := by
    unfold generationClient saPhase
    simp only [modelCandidates, modelLoop, hcall]
    simp [attemptModel, respOk, hhint]
  rw [hgen]
  rfl

/-- C4 (witness): the spec's scenario — HTTP 400 with body
"maximum token limit exceeded" yields the `resource-exhausted` code. -/
theorem tokenLimit_resource_exhausted_witness :
    hasTokenHint "maximum token limit exceeded" = true
    ∧ docQuery "contract" "u" [{ id := "d1", subject := "contract details" }]
        (fun _ => Except.error "x") (Except.ok ())
        (fun _ => ApiOutcome.resp 400 "maximum token limit exceeded" "")
        (fun _ => ApiOutcome.exn "no") none
      = CallableResult.failure "resource-exhausted" tokenLimitAdvice :=
  ⟨by decide,
    tokenLimit_resource_exhausted "contract" "u" [{ id := "d1", subject := "contract details" }]
      (fun _ => Except.error "x")
      (fun _ => ApiOutcome.resp 400 "maximum token limit exceeded" "")
      (fun _ => ApiOutcome.exn "no")
      "maximum token limit exceeded" ""
      (by decide) (by decide)
      (by rw [findRelevant_contract_eval]; decide)
      rfl (by decide)⟩

/-- C7: for every query all of whose space-separated tokens are whitespace
or stop words, the scorer returns the empty candidate list (it is a total
function, so no error is possible), and the handler — for any non-empty
query and user (empty ones are rejected by the input validation before the
scorer runs) — returns the fixed "no relevant documents" success with an
empty source list. -/
theorem stopword_query_no_docs (query userId : String) (docs : List Doc)
    (download : Doc → Except String Buffer) (tokenRes : Except String Unit)
    (saCall keyCall : String → ApiOutcome) (apiKey : Option String)
    (h : ∀ k ∈ jsSplitOnSpace (jsToLower query), jsTrim k = "" ∨ stopWords.contains k = true) :
    findRelevantDocsByMetadata query docs download = []
    ∧ (query ≠ "" → userId ≠ "" →
        docQuery query userId docs download tokenRes saCall keyCall apiKey
          = CallableResult.success "No relevant documents found for your query." []) := by
  have hkw : searchKeywords query = [] := by
    unfold searchKeywords
    rw [List.filter_eq_nil_iff]
    intro k hk
    rcases h k hk with h1 | h1
    · simp [h1]
    · simp [h1]
      exact fun _ => List.mem_of_elem_eq_true h1
  have hfind : findRelevantDocsByMetadata query docs download = [] := by
    unfold findRelevantDocsByMetadata
    rw [hkw]
    rfl
  refine ⟨hfind, ?_⟩
  intro hq hu
  unfold docQuery
  rw [if_neg (by simp [hq, hu])]
  rw [hfind]
  rfl

/-- C7 (witness): the query "the and  " (stop words and blanks only)
against a document set that would otherwise match "and". -/
theorem stopword_query_no_docs_witness :
    findRelevantDocsByMetadata "the and  " [{ id := "d1", subject := "and" }]
        (fun _ => Except.error "x") = []
    ∧ docQuery "the and  " "u" [{ id := "d1", subject := "and" }]
        (fun _ => Except.error "x") (Except.ok ())
        (fun _ => ApiOutcome.exn "n") (fun _ => ApiOutcome.exn "n") none
      = CallableResult.success "No relevant documents found for your query." [] := by
  have h := stopword_query_no_docs "the and  " "u" [{ id := "d1", subject := "and" }]
    (fun _ => Except.error "x") (Except.ok ())
    (fun _ => ApiOutcome.exn "n") (fun _ => ApiOutcome.exn "n") none (by decide)
  exact ⟨h.1, h.2 (by decide) (by decide)⟩

/-! ### Claims C6 and C10: the candidate list shape and sort stability

`scoredPairs` and `sortedMatched` name the intermediate stages of
`findRelevantDocsByMetadata` (its `scoredDocs` and `matchedDocs.sort`
values) so the theorems below can speak about them. -/

def scoredPairs (query : String) (docs : List Doc)
    (download : Doc → Except String Buffer) : List (Doc × Nat) :=
  docs.map (fun doc => (doc, scoreDoc (searchKeywords query) doc (download doc)))

def sortedMatched (query : String) (docs : List Doc)
    (download : Doc → Except String Buffer) : List (Doc × Nat) :=
  ((scoredPairs query docs download).filter (fun item => item.2 > 0)).mergeSort
    (fun a b => decide (b.2 ≤ a.2))

theorem findRelevant_eq_sorted (query : String) (docs : List Doc)
    (download : Doc → Except String Buffer) (hk : ¬ searchKeywords query = []) :
    findRelevantDocsByMetadata query docs download
      = ((sortedMatched query docs download).take MAX_CONTEXT_DOCS).map (fun item => item.1) := by
  unfold findRelevantDocsByMetadata sortedMatched scoredPairs
  rw [if_neg (by simpa [List.length_eq_zero] using hk)]

theorem findRelevant_of_no_keywords (query : String) (docs : List Doc)
    (download : Doc → Except String Buffer) (hk : searchKeywords query = []) :
    findRelevantDocsByMetadata query docs download = [] := by
  unfold findRelevantDocsByMetadata
  rw [hk]
  rfl

theorem mem_sortedMatched (query : String) (docs : List Doc)
    (download : Doc → Except String Buffer) (p : Doc × Nat)
    (hp : p ∈ sortedMatched query docs download) :
    p.2 = scoreDoc (searchKeywords query) p.1 (download p.1) ∧ 0 < p.2 := by
  unfold sortedMatched at hp
  rw [(List.mergeSort_perm _ _).mem_iff, List.mem_filter] at hp
  obtain ⟨hmem, hpos⟩ := hp
  unfold scoredPairs at hmem
  rw [List.mem_map] at hmem
  obtain ⟨d, hd, rfl⟩ := hmem
  exact ⟨rfl, by simpa using hpos⟩

theorem descend_trans : ∀ a b c : Doc × Nat,
    decide (b.2 ≤ a.2) → decide (c.2 ≤ b.2) → decide (c.2 ≤ a.2) := by
  intro a b c hab hbc
  simp only [decide_eq_true_eq] at *
  omega

theorem descend_total : ∀ a b : Doc × Nat,
    decide (b.2 ≤ a.2) || decide (a.2 ≤ b.2) := by
  intro a b
  simp only [Bool.or_eq_true, decide_eq_true_eq]
  exact (Nat.le_total b.2 a.2)

/-- C6: for every document set, query and download oracle, the candidate
list has length at most 5, every returned document's total score is
strictly positive, and the list is pairwise sorted by descending score. -/
theorem findRelevant_top5_sorted (query : String) (docs : List Doc)
    (download : Doc → Except String Buffer) :
    (findRelevantDocsByMetadata query docs download).length ≤ 5
    ∧ (∀ d ∈ findRelevantDocsByMetadata query docs download,
        0 < scoreDoc (searchKeywords query) d (download d))
    ∧ (findRelevantDocsByMetadata query docs download).Pairwise
        (fun d1 d2 => scoreDoc (searchKeywords query) d2 (download d2)
          ≤ scoreDoc (searchKeywords query) d1 (download d1)) := by
  by_cases hk : searchKeywords query = []
  · rw [findRelevant_of_no_keywords query docs download hk]
    simp
  · rw [findRelevant_eq_sorted query docs download hk]
    refine ⟨?_, ?_, ?_⟩
    · rw [List.length_map, List.length_take]
      exact Nat.min_le_left _ _
    · intro d hd
      rw [List.mem_map] at hd
      obtain ⟨p, hp, rfl⟩ := hd
      have h := mem_sortedMatched query docs download p (List.mem_of_mem_take hp)
      rw [← h.1]
      exact h.2
    · rw [List.pairwise_map]
      have hs : (sortedMatched query docs download).Pairwise
          (fun a b => decide (b.2 ≤ a.2)) := by
        unfold sortedMatched
        exact List.sorted_mergeSort descend_trans descend_total _
      have ht := hs.sublist (List.take_sublist MAX_CONTEXT_DOCS _)
      refine ht.imp_of_mem ?_
      intro a b ha hb hab
      have ha' := mem_sortedMatched query docs download a (List.mem_of_mem_take ha)
      have hb' := mem_sortedMatched query docs download b (List.mem_of_mem_take hb)
      rw [← ha'.1, ← hb'.1]
      simpa using hab

theorem sortedMatched_filter_score (query : String) (docs : List Doc)
    (download : Doc → Except String Buffer) (s : Nat) :
    (sortedMatched query docs download).filter (fun p => decide (p.2 = s))
      = ((scoredPairs query docs download).filter (fun item => item.2 > 0)).filter
          (fun p => decide (p.2 = s)) := by
  unfold sortedMatched
  set matched := (scoredPairs query docs download).filter (fun item => item.2 > 0) with hm
  set A := matched.filter (fun p => decide (p.2 = s)) with hA
  have hAsub : List.Sublist A matched := List.filter_sublist _
  have hApw : A.Pairwise (fun a b => decide (b.2 ≤ a.2)) := by
    refine List.pairwise_of_forall_mem_list ?_
    intro a ha b hb
    have ha' : a.2 = s := by simpa using (List.mem_filter.mp ha).2
    have hb' : b.2 = s := by simpa using (List.mem_filter.mp hb).2
    simp [ha', hb']
  have hsub : List.Sublist A (matched.mergeSort (fun a b => decide (b.2 ≤ a.2))) :=
    List.sublist_mergeSort descend_trans descend_total hApw hAsub
  have hAself : A.filter (fun p => decide (p.2 = s)) = A := by
    rw [List.filter_eq_self]
    intro p hp
    exact (List.mem_filter.mp hp).2
  have hsub2 : List.Sublist A ((matched.mergeSort (fun a b => decide (b.2 ≤ a.2))).filter
      (fun p => decide (p.2 = s))) := by
    rw [← hAself]
    exact hsub.filter _
  have hperm : List.Perm ((matched.mergeSort (fun a b => decide (b.2 ≤ a.2))).filter
      (fun p => decide (p.2 = s))) A :=
    (List.mergeSort_perm matched _).filter _
  exact (hsub2.eq_of_length hperm.length_eq.symm).symm

/-- C10: the descending sort is stable, so the ranking is deterministic:
for every positive score `s`, the documents of score `s` in the result, in
result order, are an initial segment of the documents of score `s` in the
source enumeration order — two documents with equal positive scores can
only appear in their original relative order. -/
theorem findRelevant_stable (query : String) (docs : List Doc)
    (download : Doc → Except String Buffer) (s : Nat) (hs : 0 < s) :
    ∃ rest,
      (findRelevantDocsByMetadata query docs download).filter
          (fun d => decide (scoreDoc (searchKeywords query) d (download d) = s)) ++ rest
        = docs.filter (fun d => decide (scoreDoc (searchKeywords query) d (download d) = s)) := by
  by_cases hk : searchKeywords query = []
  · rw [findRelevant_of_no_keywords query docs download hk]
    exact ⟨docs.filter (fun d => decide (scoreDoc (searchKeywords query) d (download d) = s)),
      by simp⟩
  · rw [findRelevant_eq_sorted query docs download hk]
    rw [List.filter_map]
    have hcong : ((sortedMatched query docs download).take MAX_CONTEXT_DOCS).filter
        ((fun d => decide (scoreDoc (searchKeywords query) d (download d) = s))
          ∘ (fun item => item.1))
        = ((sortedMatched query docs download).take MAX_CONTEXT_DOCS).filter
            (fun p => decide (p.2 = s)) := by
      refine List.filter_congr ?_
      intro p hp
      have h := mem_sortedMatched query docs download p (List.mem_of_mem_take hp)
      simp [Function.comp, ← h.1]
    rw [hcong]
    refine ⟨(((sortedMatched query docs download).drop MAX_CONTEXT_DOCS).filter
      (fun p => decide (p.2 = s))).map (fun item => item.1), ?_⟩
    rw [← List.map_append, ← List.filter_append, List.take_append_drop]
    rw [sortedMatched_filter_score query docs download s]
    rw [List.filter_filter]
    unfold scoredPairs
    rw [List.filter_map, List.map_map]
    have hid : ((fun item : Doc × Nat => item.1)
        ∘ (fun doc => (doc, scoreDoc (searchKeywords query) doc (download doc)))) = id := rfl
    rw [hid, List.map_id]
    refine List.filter_congr ?_
    intro d _
    by_cases hd : scoreDoc (searchKeywords query) d (download d) = s
    · simp [Function.comp, hd]
      omega
    · simp [Function.comp, hd]


/-- C10 (witness): `findRelevant_stable` at a concrete query, document set,
oracle and score. -/
theorem findRelevant_stable_witness :
    (0 : Nat) < 3
    ∧ ∃ rest,
      (findRelevantDocsByMetadata "contract" [{ id := "d1", subject := "contract details" }]
          (fun _ => Except.error "x")).filter
          (fun d => decide (scoreDoc (searchKeywords "contract") d (Except.error "x") = 3)) ++ rest
        = [({ id := "d1", subject := "contract details" } : Doc)].filter
            (fun d => decide (scoreDoc (searchKeywords "contract") d (Except.error "x") = 3)) :=
  ⟨by decide,
    findRelevant_stable "contract" [{ id := "d1", subject := "contract details" }]
      (fun _ => Except.error "x") 3 (by decide)⟩

end EDiscover
